import Mathlib

/-!
Verification of the AbletonMCP client library (`ableton_mcp_client.py`,
`ableton_langchain_tool.py`, `utils/simple_tools.py`).

The embedding models Python values as the inductive `PyValue` (Python
floats are represented as rationals; no arithmetic is ever performed on
them, they are only passed through to the wire).  A Python call either
returns a value or raises an exception (`PyResult`).  The external
library calls `json.loads` and `json.dumps(·, indent=2)` are modelled as
abstract function parameters (`jl`/`jd`): every theorem below holds for
every behaviour of those two library functions.  Network interaction is
modelled by explicit environment records (`TcpConn`, `UdpConn`,
`TcpConnectAttempt`, `UdpConnectAttempt`) and every operation returns,
next to its Python result, the trace of JSON command documents it wrote
to the socket (for TCP the trace records each `sendall` of a serialized
command, including attempts on which `sendall` raised after possibly
transmitting a prefix; for UDP a datagram is recorded only when `sendto`
succeeded, since datagram sends are atomic).
-/

/-- Python values as they occur in this code base: `None`, booleans,
integers, floats (modelled as rationals; pass-through only), strings,
lists and dictionaries. -/
inductive PyValue where
  | none
  | bool (b : Bool)
  | int (n : Int)
  | float (q : Rat)
  | str (s : String)
  | list (xs : List PyValue)
  | dict (kvs : List (String × PyValue))

/-- A raised Python exception: its class name and its `str(e)` message. -/
structure PyExn where
  kind : String
  msg : String

/-- Outcome of running a Python expression: a value, or a raised exception. -/
inductive PyResult (α : Type) where
  | ok (a : α)
  | exn (e : PyExn)

/-- The error dictionary built by the `except` handler of
`_send_tcp_command`: `Dict status error, message str(e)`. -/
def errorDict (msg : String) : PyValue :=
  PyValue.dict [("status", PyValue.str "error"), ("message", PyValue.str msg)]

/-- `v.get(k)` on a Python value: dictionary lookup defaulting to `None`;
on a non-dictionary (including `None`) it raises `AttributeError`. -/
def pyGet (v : PyValue) (k : String) : PyResult PyValue :=
  match v with
  | PyValue.dict kvs => PyResult.ok ((kvs.lookup k).getD PyValue.none)
  | PyValue.none => PyResult.exn ⟨"AttributeError", "NoneType object has no attribute get"⟩
  | _ => PyResult.exn ⟨"AttributeError", "object has no attribute get"⟩

/-- `v[k]` with a string key: dictionary indexing, raising `KeyError`
when the key is absent and `TypeError` on non-dictionaries. -/
def pySubscript (v : PyValue) (k : String) : PyResult PyValue :=
  match v with
  | PyValue.dict kvs =>
      match kvs.lookup k with
      | some x => PyResult.ok x
      | Option.none => PyResult.exn ⟨"KeyError", k⟩
  | _ => PyResult.exn ⟨"TypeError", "object is not subscriptable"⟩

/-- `v == s` for a string literal `s`: true exactly on an equal string. -/
def pyEqStr (v : PyValue) (s : String) : Bool :=
  match v with
  | PyValue.str t => t == s
  | _ => false

/-- Truthiness of an `Optional[str]` argument (`None` and `""` are falsy). -/
def nameTruthy : Option String → Bool
  | Option.none => false
  | some s => s != ""

/-- The payload of an `ok` result (used to state theorems about the
response value on paths where no exception is possible). -/
def okValue : PyResult PyValue → PyValue
  | PyResult.ok v => v
  | PyResult.exn _ => PyValue.none

/-- Behaviour of a TCP socket held in `self.tcp_socket`:
whether `sendall` (or the `json.dumps` before it) raises, the successive
non-blocking results of `recv` (an empty string, or the end of the list,
models the peer closing the connection), and whether the `recv` after
the listed chunks raises instead of signalling close. -/
structure TcpConn where
  sendErr : Option String
  chunks : List String
  recvErr : Option String

/-- The receive loop of `_send_tcp_command`: accumulate chunks, after
each chunk try `json.loads` on the accumulated bytes and return the
parsed value on success; an empty chunk (or the end of the stream)
breaks the loop, after which the Python function falls off the end of
its `try` block and returns `None`; a `recv` exception is caught by the
`except` handler, which returns the error dictionary. -/
def recvParseLoop (jl : String → Option PyValue) (recvErr : Option String) :
    String → List String → PyValue
  | _, [] =>
      match recvErr with
      | some m => errorDict m
      | Option.none => PyValue.none
  | acc, c :: rest =>
      if c = "" then PyValue.none
      else
        match jl (acc ++ c) with
        | some v => v
        | Option.none => recvParseLoop jl recvErr (acc ++ c) rest

/-- `AbletonMCPClient._send_tcp_command`.  Returns the Python result
together with the list of JSON command documents written to the socket
(`sendall json.dumps command`; the document is recorded even when
`sendall` raises, since a stream send may have transmitted a prefix). -/
def sendTcpCommand (jl : String → Option PyValue) (sock : Option TcpConn)
    (command : PyValue) : PyResult PyValue × List PyValue :=
  match sock with
  | Option.none => (PyResult.exn ⟨"ConnectionError", "Not connected to TCP server"⟩, [])
  | some conn =>
      match conn.sendErr with
      | some m => (PyResult.ok (errorDict m), [command])
      | Option.none =>
          (PyResult.ok (recvParseLoop jl conn.recvErr "" conn.chunks), [command])

/-- Behaviour of a UDP socket held in `self.udp_socket`: whether
`sendto` raises. -/
structure UdpConn where
  sendErr : Option String

/-- A datagram written by `sendto`: the JSON command document and the
`(host, udp_port)` destination. -/
abbrev UdpDatagram := PyValue × String × Nat

/-- `AbletonMCPClient._send_udp_command`: fire-and-forget; raises
`ConnectionError` when not connected, otherwise sends one datagram to
`(host, udp_port)` and returns `True`, or catches a `sendto` exception
and returns `False`.  No reply is ever read (the model has no receive
component for UDP at all). -/
def sendUdpCommand (host : String) (udpPort : Nat) (sock : Option UdpConn)
    (command : PyValue) : PyResult Bool × List UdpDatagram :=
  match sock with
  | Option.none => (PyResult.exn ⟨"ConnectionError", "Not connected to UDP server"⟩, [])
  | some conn =>
      match conn.sendErr with
      | some _ => (PyResult.ok false, [])
      | Option.none => (PyResult.ok true, [(command, host, udpPort)])

/-- The two socket fields of an `AbletonMCPClient` instance. -/
structure ClientState where
  tcp : Option TcpConn
  udp : Option UdpConn

/-- The state of a freshly constructed `AbletonMCPClient()`. -/
def newClient : ClientState := { tcp := Option.none, udp := Option.none }

/-- Environment of one `connect_tcp` call: whether `socket.socket(...)`
succeeds, whether `sock.connect(...)` then succeeds, the behaviour of
the resulting connected socket, and the message of the `OSError` that
`sendall` on the never-connected socket raises when the connect step
failed. -/
structure TcpConnectAttempt where
  createOk : Bool
  connectOk : Bool
  conn : TcpConn
  notConnMsg : String

/-- `AbletonMCPClient.connect_tcp`: assigns `self.tcp_socket` as soon as
the socket object is created, then connects; a failure in either step is
caught and reported as `False`.  When creation succeeded but the connect
raised, `self.tcp_socket` keeps the unconnected socket object, on which
every later `sendall` raises. -/
def connect_tcp (att : TcpConnectAttempt) (st : ClientState) : Bool × ClientState :=
  if att.createOk then
    if att.connectOk then
      (true, { st with tcp := some att.conn })
    else
      (false, { st with tcp := some { sendErr := some att.notConnMsg, chunks := [], recvErr := Option.none } })
  else
    (false, st)

/-- Environment of one `connect_udp` call: whether `socket.socket(...)`
succeeds, and the behaviour of the created datagram socket. -/
structure UdpConnectAttempt where
  createOk : Bool
  conn : UdpConn

/-- `AbletonMCPClient.connect_udp`: creates a datagram socket and
returns `True`; no network operation is performed.  It returns `False`
only when socket creation itself raises, in which case the assignment to
`self.udp_socket` never happens. -/
def connect_udp (att : UdpConnectAttempt) (st : ClientState) : Bool × ClientState :=
  if att.createOk then
    (true, { st with udp := some att.conn })
  else
    (false, st)

/-- Outcome of `sock.close()` in the modelled environment. -/
def closeResult (raises : Bool) : PyResult Unit :=
  if raises then PyResult.exn ⟨"OSError", "close failed"⟩ else PyResult.ok ()

/-- `AbletonMCPClient.disconnect`: closes whichever sockets are present,
swallowing any exception raised by `close()` (the bare `except: pass`),
and sets both socket fields to `None`.  The second component lists the
close calls that were attempted. -/
def disconnect (tcpCloseRaises udpCloseRaises : Bool) (st : ClientState) :
    ClientState × List String :=
  let p1 : Option TcpConn × List String :=
    match st.tcp with
    | some _ =>
        match closeResult tcpCloseRaises with
        | PyResult.ok _ => (Option.none, ["tcp_close"])
        | PyResult.exn _ => (Option.none, ["tcp_close"])
    | Option.none => (Option.none, [])
  let p2 : Option UdpConn × List String :=
    match st.udp with
    | some _ =>
        match closeResult udpCloseRaises with
        | PyResult.ok _ => (Option.none, ["udp_close"])
        | PyResult.exn _ => (Option.none, ["udp_close"])
    | Option.none => (Option.none, [])
  ({ tcp := p1.1, udp := p2.1 }, p1.2 ++ p2.2)

namespace Client

/-!
Command documents built by the `AbletonMCPClient` command methods.
Each `<method>_command` definition is the dictionary literal from the
body of the corresponding Python method (argument values are modelled as
arbitrary `PyValue`s, matching Python's dynamic typing; the Python type
annotations are hints only).  Each `<method>` definition is the method
itself: build the command and hand it to `_send_tcp_command` (or
`_send_udp_command`).
-/

def get_session_info_command : PyValue :=
  PyValue.dict [("type", PyValue.str "get_session_info")]

def set_tempo_command (tempo : PyValue) : PyValue :=
  PyValue.dict [("type", PyValue.str "set_tempo"),
    ("params", PyValue.dict [("tempo", tempo)])]

def start_playback_command : PyValue :=
  PyValue.dict [("type", PyValue.str "start_playback")]

def stop_playback_command : PyValue :=
  PyValue.dict [("type", PyValue.str "stop_playback")]

def get_track_info_command (track_index : PyValue) : PyValue :=
  PyValue.dict [("type", PyValue.str "get_track_info"),
    ("params", PyValue.dict [("track_index", track_index)])]

def create_midi_track_command (index : PyValue) : PyValue :=
  PyValue.dict [("type", PyValue.str "create_midi_track"),
    ("params", PyValue.dict [("index", index)])]

def create_audio_track_command (index : PyValue) : PyValue :=
  PyValue.dict [("type", PyValue.str "create_audio_track"),
    ("params", PyValue.dict [("index", index)])]

def set_track_name_command (track_index name : PyValue) : PyValue :=
  PyValue.dict [("type", PyValue.str "set_track_name"),
    ("params", PyValue.dict [("track_index", track_index), ("name", name)])]

def set_track_level_command (track_index level : PyValue) : PyValue :=
  PyValue.dict [("type", PyValue.str "set_track_level"),
    ("params", PyValue.dict [("track_index", track_index), ("level", level)])]

def set_track_pan_command (track_index pan : PyValue) : PyValue :=
  PyValue.dict [("type", PyValue.str "set_track_pan"),
    ("params", PyValue.dict [("track_index", track_index), ("pan", pan)])]

def create_clip_command (track_index clip_index length : PyValue) : PyValue :=
  PyValue.dict [("type", PyValue.str "create_clip"),
    ("params", PyValue.dict [("track_index", track_index),
      ("clip_index", clip_index), ("length", length)])]

def set_clip_name_command (track_index clip_index name : PyValue) : PyValue :=
  PyValue.dict [("type", PyValue.str "set_clip_name"),
    ("params", PyValue.dict [("track_index", track_index),
      ("clip_index", clip_index), ("name", name)])]

def fire_clip_command (track_index clip_index : PyValue) : PyValue :=
  PyValue.dict [("type", PyValue.str "fire_clip"),
    ("params", PyValue.dict [("track_index", track_index),
      ("clip_index", clip_index)])]

def stop_clip_command (track_index clip_index : PyValue) : PyValue :=
  PyValue.dict [("type", PyValue.str "stop_clip"),
    ("params", PyValue.dict [("track_index", track_index),
      ("clip_index", clip_index)])]

def set_clip_loop_parameters_command
    (track_index clip_index loop_start loop_end loop_enabled : PyValue) : PyValue :=
  PyValue.dict [("type", PyValue.str "set_clip_loop_parameters"),
    ("params", PyValue.dict [("track_index", track_index),
      ("clip_index", clip_index), ("loop_start", loop_start),
      ("loop_end", loop_end), ("loop_enabled", loop_enabled)])]

def set_clip_follow_action_command
    (track_index clip_index action target_clip chance time_val : PyValue) : PyValue :=
  PyValue.dict [("type", PyValue.str "set_clip_follow_action"),
    ("params", PyValue.dict [("track_index", track_index),
      ("clip_index", clip_index), ("action", action),
      ("target_clip", target_clip), ("chance", chance), ("time", time_val)])]

def add_notes_to_clip_command (track_index clip_index notes : PyValue) : PyValue :=
  PyValue.dict [("type", PyValue.str "add_notes_to_clip"),
    ("params", PyValue.dict [("track_index", track_index),
      ("clip_index", clip_index), ("notes", notes)])]

def get_notes_from_clip_command (track_index clip_index : PyValue) : PyValue :=
  PyValue.dict [("type", PyValue.str "get_notes_from_clip"),
    ("params", PyValue.dict [("track_index", track_index),
      ("clip_index", clip_index)])]

def batch_edit_notes_in_clip_command
    (track_index clip_index note_ids note_data_array : PyValue) : PyValue :=
  PyValue.dict [("type", PyValue.str "batch_edit_notes_in_clip"),
    ("params", PyValue.dict [("track_index", track_index),
      ("clip_index", clip_index), ("note_ids", note_ids),
      ("note_data_array", note_data_array)])]

def delete_notes_from_clip_command
    (track_index clip_index from_time to_time from_pitch to_pitch : PyValue) : PyValue :=
  PyValue.dict [("type", PyValue.str "delete_notes_from_clip"),
    ("params", PyValue.dict [("track_index", track_index),
      ("clip_index", clip_index), ("from_time", from_time),
      ("to_time", to_time), ("from_pitch", from_pitch), ("to_pitch", to_pitch)])]

def transpose_notes_in_clip_command
    (track_index clip_index semitones from_time to_time from_pitch to_pitch : PyValue) : PyValue :=
  PyValue.dict [("type", PyValue.str "transpose_notes_in_clip"),
    ("params", PyValue.dict [("track_index", track_index),
      ("clip_index", clip_index), ("semitones", semitones),
      ("from_time", from_time), ("to_time", to_time),
      ("from_pitch", from_pitch), ("to_pitch", to_pitch)])]

def quantize_notes_in_clip_command
    (track_index clip_index grid_size strength from_time to_time from_pitch to_pitch : PyValue) : PyValue :=
  PyValue.dict [("type", PyValue.str "quantize_notes_in_clip"),
    ("params", PyValue.dict [("track_index", track_index),
      ("clip_index", clip_index), ("grid_size", grid_size),
      ("strength", strength), ("from_time", from_time), ("to_time", to_time),
      ("from_pitch", from_pitch), ("to_pitch", to_pitch)])]

def randomize_note_timing_command
    (track_index clip_index amount from_time to_time from_pitch to_pitch : PyValue) : PyValue :=
  PyValue.dict [("type", PyValue.str "randomize_note_timing"),
    ("params", PyValue.dict [("track_index", track_index),
      ("clip_index", clip_index), ("amount", amount),
      ("from_time", from_time), ("to_time", to_time),
      ("from_pitch", from_pitch), ("to_pitch", to_pitch)])]

def set_note_probability_command
    (track_index clip_index probability from_time to_time from_pitch to_pitch : PyValue) : PyValue :=
  PyValue.dict [("type", PyValue.str "set_note_probability"),
    ("params", PyValue.dict [("track_index", track_index),
      ("clip_index", clip_index), ("probability", probability),
      ("from_time", from_time), ("to_time", to_time),
      ("from_pitch", from_pitch), ("to_pitch", to_pitch)])]

def get_device_parameters_command (track_index device_index : PyValue) : PyValue :=
  PyValue.dict [("type", PyValue.str "get_device_parameters"),
    ("params", PyValue.dict [("track_index", track_index),
      ("device_index", device_index)])]

def set_device_parameter_command
    (track_index device_index parameter_index value : PyValue) : PyValue :=
  PyValue.dict [("type", PyValue.str "set_device_parameter"),
    ("params", PyValue.dict [("track_index", track_index),
      ("device_index", device_index), ("parameter_index", parameter_index),
      ("value", value)])]

def batch_set_device_parameters_command
    (track_index device_index parameter_indices values : PyValue) : PyValue :=
  PyValue.dict [("type", PyValue.str "batch_set_device_parameters"),
    ("params", PyValue.dict [("track_index", track_index),
      ("device_index", device_index), ("parameter_indices", parameter_indices),
      ("values", values)])]

def load_instrument_or_effect_command (track_index uri : PyValue) : PyValue :=
  PyValue.dict [("type", PyValue.str "load_instrument_or_effect"),
    ("params", PyValue.dict [("track_index", track_index), ("uri", uri)])]

def get_browser_tree_command (category_type : PyValue) : PyValue :=
  PyValue.dict [("type", PyValue.str "get_browser_tree"),
    ("params", PyValue.dict [("category_type", category_type)])]

def get_browser_items_at_path_command (path : PyValue) : PyValue :=
  PyValue.dict [("type", PyValue.str "get_browser_items_at_path"),
    ("params", PyValue.dict [("path", path)])]

def load_drum_kit_command (track_index rack_uri kit_path : PyValue) : PyValue :=
  PyValue.dict [("type", PyValue.str "load_drum_kit"),
    ("params", PyValue.dict [("track_index", track_index),
      ("rack_uri", rack_uri), ("kit_path", kit_path)])]

def get_clip_envelope_command
    (track_index clip_index device_index parameter_index : PyValue) : PyValue :=
  PyValue.dict [("type", PyValue.str "get_clip_envelope"),
    ("params", PyValue.dict [("track_index", track_index),
      ("clip_index", clip_index), ("device_index", device_index),
      ("parameter_index", parameter_index)])]

def add_clip_envelope_point_command
    (track_index clip_index device_index parameter_index time_val value curve_type : PyValue) : PyValue :=
  PyValue.dict [("type", PyValue.str "add_clip_envelope_point"),
    ("params", PyValue.dict [("track_index", track_index),
      ("clip_index", clip_index), ("device_index", device_index),
      ("parameter_index", parameter_index), ("time", time_val),
      ("value", value), ("curve_type", curve_type)])]

def clear_clip_envelope_command
    (track_index clip_index device_index parameter_index : PyValue) : PyValue :=
  PyValue.dict [("type", PyValue.str "clear_clip_envelope"),
    ("params", PyValue.dict [("track_index", track_index),
      ("clip_index", clip_index), ("device_index", device_index),
      ("parameter_index", parameter_index)])]

def get_scenes_info_command : PyValue :=
  PyValue.dict [("type", PyValue.str "get_scenes_info")]

def create_scene_command (index : PyValue) : PyValue :=
  PyValue.dict [("type", PyValue.str "create_scene"),
    ("params", PyValue.dict [("index", index)])]

def set_scene_name_command (index name : PyValue) : PyValue :=
  PyValue.dict [("type", PyValue.str "set_scene_name"),
    ("params", PyValue.dict [("index", index), ("name", name)])]

def delete_scene_command (index : PyValue) : PyValue :=
  PyValue.dict [("type", PyValue.str "delete_scene"),
    ("params", PyValue.dict [("index", index)])]

def fire_scene_command (index : PyValue) : PyValue :=
  PyValue.dict [("type", PyValue.str "fire_scene"),
    ("params", PyValue.dict [("index", index)])]

def import_audio_file_command
    (uri track_index clip_index create_track_if_needed : PyValue) : PyValue :=
  PyValue.dict [("type", PyValue.str "import_audio_file"),
    ("params", PyValue.dict [("uri", uri), ("track_index", track_index),
      ("clip_index", clip_index),
      ("create_track_if_needed", create_track_if_needed)])]

def get_session_info (jl : String → Option PyValue) (sock : Option TcpConn) :
    PyResult PyValue × List PyValue :=
  sendTcpCommand jl sock get_session_info_command

def set_tempo (jl : String → Option PyValue) (sock : Option TcpConn)
    (tempo : PyValue) : PyResult PyValue × List PyValue :=
  sendTcpCommand jl sock (set_tempo_command tempo)

def start_playback (jl : String → Option PyValue) (sock : Option TcpConn) :
    PyResult PyValue × List PyValue :=
  sendTcpCommand jl sock start_playback_command

def stop_playback (jl : String → Option PyValue) (sock : Option TcpConn) :
    PyResult PyValue × List PyValue :=
  sendTcpCommand jl sock stop_playback_command

def get_track_info (jl : String → Option PyValue) (sock : Option TcpConn)
    (track_index : PyValue) : PyResult PyValue × List PyValue :=
  sendTcpCommand jl sock (get_track_info_command track_index)

def create_midi_track (jl : String → Option PyValue) (sock : Option TcpConn)
    (index : PyValue) : PyResult PyValue × List PyValue :=
  sendTcpCommand jl sock (create_midi_track_command index)

def create_audio_track (jl : String → Option PyValue) (sock : Option TcpConn)
    (index : PyValue) : PyResult PyValue × List PyValue :=
  sendTcpCommand jl sock (create_audio_track_command index)

def set_track_name (jl : String → Option PyValue) (sock : Option TcpConn)
    (track_index name : PyValue) : PyResult PyValue × List PyValue :=
  sendTcpCommand jl sock (set_track_name_command track_index name)

def set_track_level (jl : String → Option PyValue) (sock : Option TcpConn)
    (track_index level : PyValue) : PyResult PyValue × List PyValue :=
  sendTcpCommand jl sock (set_track_level_command track_index level)

def set_track_pan (jl : String → Option PyValue) (sock : Option TcpConn)
    (track_index pan : PyValue) : PyResult PyValue × List PyValue :=
  sendTcpCommand jl sock (set_track_pan_command track_index pan)

def create_clip (jl : String → Option PyValue) (sock : Option TcpConn)
    (track_index clip_index length : PyValue) : PyResult PyValue × List PyValue :=
  sendTcpCommand jl sock (create_clip_command track_index clip_index length)

def set_clip_name (jl : String → Option PyValue) (sock : Option TcpConn)
    (track_index clip_index name : PyValue) : PyResult PyValue × List PyValue :=
  sendTcpCommand jl sock (set_clip_name_command track_index clip_index name)

def fire_clip (jl : String → Option PyValue) (sock : Option TcpConn)
    (track_index clip_index : PyValue) : PyResult PyValue × List PyValue :=
  sendTcpCommand jl sock (fire_clip_command track_index clip_index)

def stop_clip (jl : String → Option PyValue) (sock : Option TcpConn)
    (track_index clip_index : PyValue) : PyResult PyValue × List PyValue :=
  sendTcpCommand jl sock (stop_clip_command track_index clip_index)

def set_clip_loop_parameters (jl : String → Option PyValue) (sock : Option TcpConn)
    (track_index clip_index loop_start loop_end loop_enabled : PyValue) :
    PyResult PyValue × List PyValue :=
  sendTcpCommand jl sock
    (set_clip_loop_parameters_command track_index clip_index loop_start loop_end loop_enabled)

def set_clip_follow_action (jl : String → Option PyValue) (sock : Option TcpConn)
    (track_index clip_index action target_clip chance time_val : PyValue) :
    PyResult PyValue × List PyValue :=
  sendTcpCommand jl sock
    (set_clip_follow_action_command track_index clip_index action target_clip chance time_val)

def add_notes_to_clip (jl : String → Option PyValue) (sock : Option TcpConn)
    (track_index clip_index notes : PyValue) : PyResult PyValue × List PyValue :=
  sendTcpCommand jl sock (add_notes_to_clip_command track_index clip_index notes)

def get_notes_from_clip (jl : String → Option PyValue) (sock : Option TcpConn)
    (track_index clip_index : PyValue) : PyResult PyValue × List PyValue :=
  sendTcpCommand jl sock (get_notes_from_clip_command track_index clip_index)

def batch_edit_notes_in_clip (jl : String → Option PyValue) (sock : Option TcpConn)
    (track_index clip_index note_ids note_data_array : PyValue) :
    PyResult PyValue × List PyValue :=
  sendTcpCommand jl sock
    (batch_edit_notes_in_clip_command track_index clip_index note_ids note_data_array)

def delete_notes_from_clip (jl : String → Option PyValue) (sock : Option TcpConn)
    (track_index clip_index from_time to_time from_pitch to_pitch : PyValue) :
    PyResult PyValue × List PyValue :=
  sendTcpCommand jl sock
    (delete_notes_from_clip_command track_index clip_index from_time to_time from_pitch to_pitch)

def transpose_notes_in_clip (jl : String → Option PyValue) (sock : Option TcpConn)
    (track_index clip_index semitones from_time to_time from_pitch to_pitch : PyValue) :
    PyResult PyValue × List PyValue :=
  sendTcpCommand jl sock
    (transpose_notes_in_clip_command track_index clip_index semitones from_time to_time from_pitch to_pitch)

def quantize_notes_in_clip (jl : String → Option PyValue) (sock : Option TcpConn)
    (track_index clip_index grid_size strength from_time to_time from_pitch to_pitch : PyValue) :
    PyResult PyValue × List PyValue :=
  sendTcpCommand jl sock
    (quantize_notes_in_clip_command track_index clip_index grid_size strength from_time to_time from_pitch to_pitch)

def randomize_note_timing (jl : String → Option PyValue) (sock : Option TcpConn)
    (track_index clip_index amount from_time to_time from_pitch to_pitch : PyValue) :
    PyResult PyValue × List PyValue :=
  sendTcpCommand jl sock
    (randomize_note_timing_command track_index clip_index amount from_time to_time from_pitch to_pitch)

def set_note_probability (jl : String → Option PyValue) (sock : Option TcpConn)
    (track_index clip_index probability from_time to_time from_pitch to_pitch : PyValue) :
    PyResult PyValue × List PyValue :=
  sendTcpCommand jl sock
    (set_note_probability_command track_index clip_index probability from_time to_time from_pitch to_pitch)

def get_device_parameters (jl : String → Option PyValue) (sock : Option TcpConn)
    (track_index device_index : PyValue) : PyResult PyValue × List PyValue :=
  sendTcpCommand jl sock (get_device_parameters_command track_index device_index)

def set_device_parameter (jl : String → Option PyValue) (sock : Option TcpConn)
    (track_index device_index parameter_index value : PyValue) :
    PyResult PyValue × List PyValue :=
  sendTcpCommand jl sock
    (set_device_parameter_command track_index device_index parameter_index value)

def batch_set_device_parameters (jl : String → Option PyValue) (sock : Option TcpConn)
    (track_index device_index parameter_indices values : PyValue) :
    PyResult PyValue × List PyValue :=
  sendTcpCommand jl sock
    (batch_set_device_parameters_command track_index device_index parameter_indices values)

/-- `set_device_parameter_udp`: builds the same `set_device_parameter`
command document and hands it to `_send_udp_command`. -/
def set_device_parameter_udp (host : String) (udpPort : Nat) (sock : Option UdpConn)
    (track_index device_index parameter_index value : PyValue) :
    PyResult Bool × List UdpDatagram :=
  sendUdpCommand host udpPort sock
    (set_device_parameter_command track_index device_index parameter_index value)

/-- `batch_set_device_parameters_udp`: builds the same
`batch_set_device_parameters` command document and hands it to
`_send_udp_command`. -/
def batch_set_device_parameters_udp (host : String) (udpPort : Nat) (sock : Option UdpConn)
    (track_index device_index parameter_indices values : PyValue) :
    PyResult Bool × List UdpDatagram :=
  sendUdpCommand host udpPort sock
    (batch_set_device_parameters_command track_index device_index parameter_indices values)

def load_instrument_or_effect (jl : String → Option PyValue) (sock : Option TcpConn)
    (track_index uri : PyValue) : PyResult PyValue × List PyValue :=
  sendTcpCommand jl sock (load_instrument_or_effect_command track_index uri)

def get_browser_tree (jl : String → Option PyValue) (sock : Option TcpConn)
    (category_type : PyValue) : PyResult PyValue × List PyValue :=
  sendTcpCommand jl sock (get_browser_tree_command category_type)

def get_browser_items_at_path (jl : String → Option PyValue) (sock : Option TcpConn)
    (path : PyValue) : PyResult PyValue × List PyValue :=
  sendTcpCommand jl sock (get_browser_items_at_path_command path)

def load_drum_kit (jl : String → Option PyValue) (sock : Option TcpConn)
    (track_index rack_uri kit_path : PyValue) : PyResult PyValue × List PyValue :=
  sendTcpCommand jl sock (load_drum_kit_command track_index rack_uri kit_path)

def get_clip_envelope (jl : String → Option PyValue) (sock : Option TcpConn)
    (track_index clip_index device_index parameter_index : PyValue) :
    PyResult PyValue × List PyValue :=
  sendTcpCommand jl sock
    (get_clip_envelope_command track_index clip_index device_index parameter_index)

def add_clip_envelope_point (jl : String → Option PyValue) (sock : Option TcpConn)
    (track_index clip_index device_index parameter_index time_val value curve_type : PyValue) :
    PyResult PyValue × List PyValue :=
  sendTcpCommand jl sock
    (add_clip_envelope_point_command track_index clip_index device_index parameter_index time_val value curve_type)

def clear_clip_envelope (jl : String → Option PyValue) (sock : Option TcpConn)
    (track_index clip_index device_index parameter_index : PyValue) :
    PyResult PyValue × List PyValue :=
  sendTcpCommand jl sock
    (clear_clip_envelope_command track_index clip_index device_index parameter_index)

def get_scenes_info (jl : String → Option PyValue) (sock : Option TcpConn) :
    PyResult PyValue × List PyValue :=
  sendTcpCommand jl sock get_scenes_info_command

def create_scene (jl : String → Option PyValue) (sock : Option TcpConn)
    (index : PyValue) : PyResult PyValue × List PyValue :=
  sendTcpCommand jl sock (create_scene_command index)

def set_scene_name (jl : String → Option PyValue) (sock : Option TcpConn)
    (index name : PyValue) : PyResult PyValue × List PyValue :=
  sendTcpCommand jl sock (set_scene_name_command index name)

def delete_scene (jl : String → Option PyValue) (sock : Option TcpConn)
    (index : PyValue) : PyResult PyValue × List PyValue :=
  sendTcpCommand jl sock (delete_scene_command index)

def fire_scene (jl : String → Option PyValue) (sock : Option TcpConn)
    (index : PyValue) : PyResult PyValue × List PyValue :=
  sendTcpCommand jl sock (fire_scene_command index)

def import_audio_file (jl : String → Option PyValue) (sock : Option TcpConn)
    (uri track_index clip_index create_track_if_needed : PyValue) :
    PyResult PyValue × List PyValue :=
  sendTcpCommand jl sock
    (import_audio_file_command uri track_index clip_index create_track_if_needed)

end Client

/-- Events observable during one LangChain tool `_run` invocation:
the TCP connection being established, a command document being written
to it, and `client.disconnect()` being called. -/
inductive RunEvent where
  | connected
  | sentCmd (cmd : PyValue)
  | disconnected

/-- The connection-failure string returned by every tool `_run` when
`connect_tcp` reports `False`. -/
def connectFailMsg : String :=
  "Error: Failed to connect to Ableton Live. Make sure Ableton Live is running and the MCP server is active."

/-- The shared body of every LangChain tool `_run` method
(`ableton_langchain_tool.py`; the 27 tool classes differ only in which
client command method they call, abstracted here as the command document
`cmd`):
construct a fresh `AbletonMCPClient()`, and inside `try`:
if `connect_tcp` fails, return the fixed failure message; otherwise call
the client method, call `client.disconnect()`, and return
`json.dumps(result, indent=2)`.  `except Exception` returns
`"Error: " ++ str(e)`.  `jd` models `json.dumps(·, indent=2)`.  Note the
source calls `disconnect` before `json.dumps`, so a `json.dumps`
exception is reported after the socket was already closed. -/
def toolRunBody (jl : String → Option PyValue) (jd : PyValue → PyResult String)
    (att : TcpConnectAttempt) (cmd : PyValue) : PyResult String × List RunEvent :=
  let st0 := newClient
  match connect_tcp att st0 with
  | (false, _) => (PyResult.ok connectFailMsg, [])
  | (true, st1) =>
      match sendTcpCommand jl st1.tcp cmd with
      | (PyResult.exn e, sent) =>
          (PyResult.ok ("Error: " ++ e.msg), RunEvent.connected :: sent.map RunEvent.sentCmd)
      | (PyResult.ok v, sent) =>
          let evts := RunEvent.connected :: sent.map RunEvent.sentCmd ++ [RunEvent.disconnected]
          match jd v with
          | PyResult.ok s => (PyResult.ok s, evts)
          | PyResult.exn e => (PyResult.ok ("Error: " ++ e.msg), evts)

namespace Tools

/-!
The 27 LangChain tool adapters.  Each `_run` is the shared body applied
to the command document of the one client method the tool wraps.
-/

def AbletonSessionInfoTool_run (jl : String → Option PyValue)
    (jd : PyValue → PyResult String) (att : TcpConnectAttempt) :
    PyResult String × List RunEvent :=
  toolRunBody jl jd att Client.get_session_info_command

def AbletonTrackInfoTool_run (jl : String → Option PyValue)
    (jd : PyValue → PyResult String) (att : TcpConnectAttempt)
    (track_index : PyValue) : PyResult String × List RunEvent :=
  toolRunBody jl jd att (Client.get_track_info_command track_index)

def AbletonSetTempoTool_run (jl : String → Option PyValue)
    (jd : PyValue → PyResult String) (att : TcpConnectAttempt)
    (tempo : PyValue) : PyResult String × List RunEvent :=
  toolRunBody jl jd att (Client.set_tempo_command tempo)

def AbletonCreateMidiTrackTool_run (jl : String → Option PyValue)
    (jd : PyValue → PyResult String) (att : TcpConnectAttempt)
    (index : PyValue) : PyResult String × List RunEvent :=
  toolRunBody jl jd att (Client.create_midi_track_command index)

def AbletonCreateClipTool_run (jl : String → Option PyValue)
    (jd : PyValue → PyResult String) (att : TcpConnectAttempt)
    (track_index clip_index length : PyValue) : PyResult String × List RunEvent :=
  toolRunBody jl jd att (Client.create_clip_command track_index clip_index length)

def AbletonAddNotesTool_run (jl : String → Option PyValue)
    (jd : PyValue → PyResult String) (att : TcpConnectAttempt)
    (track_index clip_index notes : PyValue) : PyResult String × List RunEvent :=
  toolRunBody jl jd att (Client.add_notes_to_clip_command track_index clip_index notes)

def AbletonFireClipTool_run (jl : String → Option PyValue)
    (jd : PyValue → PyResult String) (att : TcpConnectAttempt)
    (track_index clip_index : PyValue) : PyResult String × List RunEvent :=
  toolRunBody jl jd att (Client.fire_clip_command track_index clip_index)

def AbletonStopClipTool_run (jl : String → Option PyValue)
    (jd : PyValue → PyResult String) (att : TcpConnectAttempt)
    (track_index clip_index : PyValue) : PyResult String × List RunEvent :=
  toolRunBody jl jd att (Client.stop_clip_command track_index clip_index)

def AbletonStartPlaybackTool_run (jl : String → Option PyValue)
    (jd : PyValue → PyResult String) (att : TcpConnectAttempt) :
    PyResult String × List RunEvent :=
  toolRunBody jl jd att Client.start_playback_command

def AbletonStopPlaybackTool_run (jl : String → Option PyValue)
    (jd : PyValue → PyResult String) (att : TcpConnectAttempt) :
    PyResult String × List RunEvent :=
  toolRunBody jl jd att Client.stop_playback_command

def AbletonSetTrackNameTool_run (jl : String → Option PyValue)
    (jd : PyValue → PyResult String) (att : TcpConnectAttempt)
    (track_index name : PyValue) : PyResult String × List RunEvent :=
  toolRunBody jl jd att (Client.set_track_name_command track_index name)

def AbletonSetClipNameTool_run (jl : String → Option PyValue)
    (jd : PyValue → PyResult String) (att : TcpConnectAttempt)
    (track_index clip_index name : PyValue) : PyResult String × List RunEvent :=
  toolRunBody jl jd att (Client.set_clip_name_command track_index clip_index name)

def AbletonGetDeviceParametersTool_run (jl : String → Option PyValue)
    (jd : PyValue → PyResult String) (att : TcpConnectAttempt)
    (track_index device_index : PyValue) : PyResult String × List RunEvent :=
  toolRunBody jl jd att (Client.get_device_parameters_command track_index device_index)

def AbletonSetDeviceParameterTool_run (jl : String → Option PyValue)
    (jd : PyValue → PyResult String) (att : TcpConnectAttempt)
    (track_index device_index parameter_index value : PyValue) :
    PyResult String × List RunEvent :=
  toolRunBody jl jd att
    (Client.set_device_parameter_command track_index device_index parameter_index value)

def AbletonBatchSetDeviceParametersTool_run (jl : String → Option PyValue)
    (jd : PyValue → PyResult String) (att : TcpConnectAttempt)
    (track_index device_index parameter_indices values : PyValue) :
    PyResult String × List RunEvent :=
  toolRunBody jl jd att
    (Client.batch_set_device_parameters_command track_index device_index parameter_indices values)

def AbletonLoadInstrumentOrEffectTool_run (jl : String → Option PyValue)
    (jd : PyValue → PyResult String) (att : TcpConnectAttempt)
    (track_index uri : PyValue) : PyResult String × List RunEvent :=
  toolRunBody jl jd att (Client.load_instrument_or_effect_command track_index uri)

def AbletonGetBrowserTreeTool_run (jl : String → Option PyValue)
    (jd : PyValue → PyResult String) (att : TcpConnectAttempt)
    (category_type : PyValue) : PyResult String × List RunEvent :=
  toolRunBody jl jd att (Client.get_browser_tree_command category_type)

def AbletonGetBrowserItemsAtPathTool_run (jl : String → Option PyValue)
    (jd : PyValue → PyResult String) (att : TcpConnectAttempt)
    (path : PyValue) : PyResult String × List RunEvent :=
  toolRunBody jl jd att (Client.get_browser_items_at_path_command path)

def AbletonLoadDrumKitTool_run (jl : String → Option PyValue)
    (jd : PyValue → PyResult String) (att : TcpConnectAttempt)
    (track_index rack_uri kit_path : PyValue) : PyResult String × List RunEvent :=
  toolRunBody jl jd att (Client.load_drum_kit_command track_index rack_uri kit_path)

def AbletonGetNotesFromClipTool_run (jl : String → Option PyValue)
    (jd : PyValue → PyResult String) (att : TcpConnectAttempt)
    (track_index clip_index : PyValue) : PyResult String × List RunEvent :=
  toolRunBody jl jd att (Client.get_notes_from_clip_command track_index clip_index)

def AbletonDeleteNotesFromClipTool_run (jl : String → Option PyValue)
    (jd : PyValue → PyResult String) (att : TcpConnectAttempt)
    (track_index clip_index from_time to_time from_pitch to_pitch : PyValue) :
    PyResult String × List RunEvent :=
  toolRunBody jl jd att
    (Client.delete_notes_from_clip_command track_index clip_index from_time to_time from_pitch to_pitch)

def AbletonTransposeNotesTool_run (jl : String → Option PyValue)
    (jd : PyValue → PyResult String) (att : TcpConnectAttempt)
    (track_index clip_index semitones from_time to_time from_pitch to_pitch : PyValue) :
    PyResult String × List RunEvent :=
  toolRunBody jl jd att
    (Client.transpose_notes_in_clip_command track_index clip_index semitones from_time to_time from_pitch to_pitch)

def AbletonQuantizeNotesTool_run (jl : String → Option PyValue)
    (jd : PyValue → PyResult String) (att : TcpConnectAttempt)
    (track_index clip_index grid_size strength from_time to_time from_pitch to_pitch : PyValue) :
    PyResult String × List RunEvent :=
  toolRunBody jl jd att
    (Client.quantize_notes_in_clip_command track_index clip_index grid_size strength from_time to_time from_pitch to_pitch)

def AbletonGetScenesInfoTool_run (jl : String → Option PyValue)
    (jd : PyValue → PyResult String) (att : TcpConnectAttempt) :
    PyResult String × List RunEvent :=
  toolRunBody jl jd att Client.get_scenes_info_command

def AbletonCreateSceneTool_run (jl : String → Option PyValue)
    (jd : PyValue → PyResult String) (att : TcpConnectAttempt)
    (index : PyValue) : PyResult String × List RunEvent :=
  toolRunBody jl jd att (Client.create_scene_command index)

def AbletonFireSceneTool_run (jl : String → Option PyValue)
    (jd : PyValue → PyResult String) (att : TcpConnectAttempt)
    (index : PyValue) : PyResult String × List RunEvent :=
  toolRunBody jl jd att (Client.fire_scene_command index)

def AbletonImportAudioFileTool_run (jl : String → Option PyValue)
    (jd : PyValue → PyResult String) (att : TcpConnectAttempt)
    (uri track_index clip_index create_track_if_needed : PyValue) :
    PyResult String × List RunEvent :=
  toolRunBody jl jd att
    (Client.import_audio_file_command uri track_index clip_index create_track_if_needed)

end Tools

namespace SimpleTools

/-!
`utils/simple_tools.py`: quick-access helper functions over a module
global `client` (here passed explicitly as `Option ClientState`; the
global is `None` until `connect()` succeeds).
-/

/-- The shared shape of the single-command helpers (`get_session`,
`set_tempo`, `play`, `stop`, `get_track`, `add_notes`, `fire_clip`,
`stop_clip`, `get_device_params`, `set_param`, `get_browser`,
`load_instrument`): when the global client is `None`, print a message
and return `None`; otherwise forward one command through the client
method. -/
def passthrough (jl : String → Option PyValue) (client : Option ClientState)
    (cmd : PyValue) : PyResult PyValue × List PyValue :=
  match client with
  | Option.none => (PyResult.ok PyValue.none, [])
  | some st => sendTcpCommand jl st.tcp cmd

def get_session (jl : String → Option PyValue) (client : Option ClientState) :
    PyResult PyValue × List PyValue :=
  passthrough jl client Client.get_session_info_command

def set_tempo (jl : String → Option PyValue) (client : Option ClientState)
    (bpm : PyValue) : PyResult PyValue × List PyValue :=
  passthrough jl client (Client.set_tempo_command bpm)

def play (jl : String → Option PyValue) (client : Option ClientState) :
    PyResult PyValue × List PyValue :=
  passthrough jl client Client.start_playback_command

def stop (jl : String → Option PyValue) (client : Option ClientState) :
    PyResult PyValue × List PyValue :=
  passthrough jl client Client.stop_playback_command

def get_track (jl : String → Option PyValue) (client : Option ClientState)
    (track_index : PyValue) : PyResult PyValue × List PyValue :=
  passthrough jl client (Client.get_track_info_command track_index)

def add_notes (jl : String → Option PyValue) (client : Option ClientState)
    (track_index clip_index notes : PyValue) : PyResult PyValue × List PyValue :=
  passthrough jl client (Client.add_notes_to_clip_command track_index clip_index notes)

def fire_clip (jl : String → Option PyValue) (client : Option ClientState)
    (track_index clip_index : PyValue) : PyResult PyValue × List PyValue :=
  passthrough jl client (Client.fire_clip_command track_index clip_index)

def stop_clip (jl : String → Option PyValue) (client : Option ClientState)
    (track_index clip_index : PyValue) : PyResult PyValue × List PyValue :=
  passthrough jl client (Client.stop_clip_command track_index clip_index)

def get_device_params (jl : String → Option PyValue) (client : Option ClientState)
    (track_index device_index : PyValue) : PyResult PyValue × List PyValue :=
  passthrough jl client (Client.get_device_parameters_command track_index device_index)

def set_param (jl : String → Option PyValue) (client : Option ClientState)
    (track_index device_index param_index value : PyValue) :
    PyResult PyValue × List PyValue :=
  passthrough jl client
    (Client.set_device_parameter_command track_index device_index param_index value)

def get_browser (jl : String → Option PyValue) (client : Option ClientState)
    (category : PyValue) : PyResult PyValue × List PyValue :=
  passthrough jl client (Client.get_browser_tree_command category)

def load_instrument (jl : String → Option PyValue) (client : Option ClientState)
    (track_index uri : PyValue) : PyResult PyValue × List PyValue :=
  passthrough jl client (Client.load_instrument_or_effect_command track_index uri)

/-- `set_param_fast`: the one UDP helper; returns `None` when not
connected, otherwise the boolean result of `set_device_parameter_udp`. -/
def set_param_fast (host : String) (udpPort : Nat) (client : Option ClientState)
    (track_index device_index param_index value : PyValue) :
    PyResult PyValue × List UdpDatagram :=
  match client with
  | Option.none => (PyResult.ok PyValue.none, [])
  | some st =>
      match Client.set_device_parameter_udp host udpPort st.udp
          track_index device_index param_index value with
      | (PyResult.ok b, dgs) => (PyResult.ok (PyValue.bool b), dgs)
      | (PyResult.exn e, dgs) => (PyResult.exn e, dgs)

/-- `create_track(name=None)`: sends `create_midi_track`; when the reply
reports success and a truthy name was given, additionally sends
`set_track_name` for the returned track index (a second command).
Exceptions from `result.get` / `result[...]` on malformed replies
propagate, as in the source. -/
def create_track (jl : String → Option PyValue) (client : Option ClientState)
    (name : Option String) : PyResult PyValue × List PyValue :=
  match client with
  | Option.none => (PyResult.ok PyValue.none, [])
  | some st =>
      match sendTcpCommand jl st.tcp (Client.create_midi_track_command (PyValue.int (-1))) with
      | (PyResult.exn e, sent) => (PyResult.exn e, sent)
      | (PyResult.ok result, sent) =>
          match pyGet result "status" with
          | PyResult.exn e => (PyResult.exn e, sent)
          | PyResult.ok status =>
              if pyEqStr status "success" && nameTruthy name then
                match pySubscript result "result" with
                | PyResult.exn e => (PyResult.exn e, sent)
                | PyResult.ok res1 =>
                    match pySubscript res1 "index" with
                    | PyResult.exn e => (PyResult.exn e, sent)
                    | PyResult.ok track_index =>
                        match sendTcpCommand jl st.tcp
                            (Client.set_track_name_command track_index
                              (PyValue.str (name.getD ""))) with
                        | (PyResult.exn e, sent2) => (PyResult.exn e, sent ++ sent2)
                        | (PyResult.ok _, sent2) => (PyResult.ok result, sent ++ sent2)
              else
                (PyResult.ok result, sent)

/-- `create_clip(track_index, clip_index=0, length=4.0, name=None)`:
sends `create_clip`; when the reply reports success and a truthy name
was given, additionally sends `set_clip_name` (a second command). -/
def create_clip (jl : String → Option PyValue) (client : Option ClientState)
    (track_index clip_index length : PyValue) (name : Option String) :
    PyResult PyValue × List PyValue :=
  match client with
  | Option.none => (PyResult.ok PyValue.none, [])
  | some st =>
      match sendTcpCommand jl st.tcp
          (Client.create_clip_command track_index clip_index length) with
      | (PyResult.exn e, sent) => (PyResult.exn e, sent)
      | (PyResult.ok result, sent) =>
          match pyGet result "status" with
          | PyResult.exn e => (PyResult.exn e, sent)
          | PyResult.ok status =>
              if pyEqStr status "success" && nameTruthy name then
                match sendTcpCommand jl st.tcp
                    (Client.set_clip_name_command track_index clip_index
                      (PyValue.str (name.getD ""))) with
                | (PyResult.exn e, sent2) => (PyResult.exn e, sent ++ sent2)
                | (PyResult.ok _, sent2) => (PyResult.ok result, sent ++ sent2)
              else
                (PyResult.ok result, sent)

end SimpleTools

/-- Number of command documents written during a tool `_run`. -/
def sentCount (evts : List RunEvent) : Nat :=
  (evts.filter fun e =>
    match e with
    | RunEvent.sentCmd _ => true
    | _ => false).length

/-- The `params` dictionary of a command document (empty when absent). -/
def paramsOf (cmd : PyValue) : List (String × PyValue) :=
  match cmd with
  | PyValue.dict kvs =>
      match kvs.lookup "params" with
      | some (PyValue.dict ps) => ps
      | _ => []
  | _ => []

/-! Concrete environments used by counterexamples and witnesses. -/

/-- A `json.loads` behaviour that never succeeds (any parser agrees with
it on inputs it is never asked about). -/
def jlNone : String → Option PyValue := fun _ => Option.none

/-- A demo success reply from the remote endpoint. -/
def successReply : PyValue :=
  PyValue.dict [("status", PyValue.str "success"),
    ("result", PyValue.dict [("index", PyValue.int 3)])]

/-- A `json.loads` behaviour that parses the single demo wire string. -/
def jlDemo : String → Option PyValue :=
  fun s => if s = "RESP" then some successReply else Option.none

/-- A connected socket whose peer closes before sending anything. -/
def connClosed : TcpConn :=
  { sendErr := Option.none, chunks := [], recvErr := Option.none }

/-- A connected socket that answers every command with the demo reply. -/
def connDemo : TcpConn :=
  { sendErr := Option.none, chunks := ["RESP"], recvErr := Option.none }

/-- A `connect_tcp` environment in which `socket.socket(...)` raises. -/
def attNoCreate : TcpConnectAttempt :=
  { createOk := false, connectOk := false, conn := connClosed, notConnMsg := "not connected" }

/-- A `connect_tcp` environment in which the socket object is created
but `connect` raises. -/
def attNoConnect : TcpConnectAttempt :=
  { createOk := true, connectOk := false, conn := connClosed, notConnMsg := "not connected" }

/-- A `connect_tcp` environment in which the connection succeeds and the
peer answers with the demo reply. -/
def attDemo : TcpConnectAttempt :=
  { createOk := true, connectOk := true, conn := connDemo, notConnMsg := "not connected" }

/-- A connected client whose TCP peer answers with the demo reply. -/
def stDemo : ClientState := { tcp := some connDemo, udp := Option.none }

/-- A `json.dumps` behaviour that always succeeds. -/
def jdOk : PyValue → PyResult String := fun _ => PyResult.ok "serialized"

/-! Shared lemmas about the transport layer. -/

/-- On a present socket, `_send_tcp_command` writes exactly its one
command document to the socket, whatever happens afterwards. -/
theorem sendTcp_sent (jl : String → Option PyValue) (conn : TcpConn) (cmd : PyValue) :
    (sendTcpCommand jl (some conn) cmd).2 = [cmd] := by
  cases h : conn.sendErr <;> simp [sendTcpCommand, h]

/-- `_send_tcp_command` writes at most one command document, on any
socket state. -/
theorem sendTcp_len (jl : String → Option PyValue) (sock : Option TcpConn) (cmd : PyValue) :
    (sendTcpCommand jl sock cmd).2.length ≤ 1 := by
  cases sock with
  | none => simp [sendTcpCommand]
  | some conn => cases h : conn.sendErr <;> simp [sendTcpCommand, h]

/-- On a present socket, `_send_tcp_command` never raises: its result is
`ok` of its own payload. -/
theorem sendTcp_isOk (jl : String → Option PyValue) (conn : TcpConn) (cmd : PyValue) :
    (sendTcpCommand jl (some conn) cmd).1
      = PyResult.ok (okValue (sendTcpCommand jl (some conn) cmd).1) := by
  cases h : conn.sendErr <;> simp [sendTcpCommand, h, okValue]

/-- Full characterization of the events of one tool `_run`: when the
connection succeeds the trace is connect, one command, disconnect (in
that order, for every `json.loads` and `json.dumps` behaviour); when it
fails the trace is empty. -/
theorem toolRunBody_events (jl : String → Option PyValue) (jd : PyValue → PyResult String)
    (att : TcpConnectAttempt) (cmd : PyValue) :
    (toolRunBody jl jd att cmd).2
      = if att.createOk && att.connectOk then
          [RunEvent.connected, RunEvent.sentCmd cmd, RunEvent.disconnected]
        else [] := by
  cases hc : att.createOk
  · simp [toolRunBody, connect_tcp, hc]
  · cases ho : att.connectOk
    · simp [toolRunBody, connect_tcp, hc, ho]
    · cases hs : att.conn.sendErr with
      | none =>
          cases hj : jd (recvParseLoop jl att.conn.recvErr "" att.conn.chunks) <;>
            simp [toolRunBody, connect_tcp, hc, ho, sendTcpCommand, hs, hj, newClient]
      | some m =>
          cases hj : jd (errorDict m) <;>
            simp [toolRunBody, connect_tcp, hc, ho, sendTcpCommand, hs, hj, newClient]

/-- Full characterization of the string returned by one tool `_run`:
always an `ok` string; the fixed failure message when the connection
fails, otherwise the `json.dumps` serialization of the client response,
with a `json.dumps` exception reported as an error string. -/
theorem toolRunBody_result (jl : String → Option PyValue) (jd : PyValue → PyResult String)
    (att : TcpConnectAttempt) (cmd : PyValue) :
    (toolRunBody jl jd att cmd).1
      = PyResult.ok
          (if att.createOk && att.connectOk then
            match jd (okValue (sendTcpCommand jl (some att.conn) cmd).1) with
            | PyResult.ok s => s
            | PyResult.exn e => "Error: " ++ e.msg
          else connectFailMsg) := by
  cases hc : att.createOk
  · simp [toolRunBody, connect_tcp, hc]
  · cases ho : att.connectOk
    · simp [toolRunBody, connect_tcp, hc, ho]
    · cases hs : att.conn.sendErr with
      | none =>
          cases hj : jd (recvParseLoop jl att.conn.recvErr "" att.conn.chunks) <;>
            simp [toolRunBody, connect_tcp, hc, ho, sendTcpCommand, hs, hj, newClient, okValue]
      | some m =>
          cases hj : jd (errorDict m) <;>
            simp [toolRunBody, connect_tcp, hc, ho, sendTcpCommand, hs, hj, newClient, okValue]

/-- C1: the claim states `_send_tcp_command` never returns a
non-dictionary value such as `None`, for any sequence of received
chunks, including the server closing the connection before a complete
JSON reply arrives.  The code contradicts this (and its own
`-> Dict ...` return annotation): when the peer closes the connection
before any accumulated data parses as complete JSON, the `while` loop
breaks and the function falls off the end of its `try` block, returning
`None`.  Both closing immediately and closing after an unparseable
chunk are exhibited; in each case the command was sent, nothing raised,
and the Python result is `None`, not a dictionary. -/
theorem C1_returns_none_on_early_close :
    (sendTcpCommand jlNone (some connClosed) Client.get_session_info_command
        = (PyResult.ok PyValue.none, [Client.get_session_info_command]))
  ∧ (sendTcpCommand jlNone
        (some { sendErr := Option.none, chunks := ["INCOMPLETE"], recvErr := Option.none })
        Client.get_session_info_command
        = (PyResult.ok PyValue.none, [Client.get_session_info_command])) :=
  ⟨rfl, rfl⟩

/-- C2 counterexample: the claim states the `params` dictionary maps
each parameter name to the argument passed.  `set_clip_follow_action`
has a parameter named `time_val`, but the command it sends carries that
argument under the key `time` and has no key `time_val` at all (shown
here at concrete arguments; `add_clip_envelope_point` behaves the same
way). -/
theorem C2_counterexample :
    ((paramsOf (Client.set_clip_follow_action_command (PyValue.int 0) (PyValue.int 0)
        (PyValue.str "next") PyValue.none (PyValue.int 1) (PyValue.int 1))).lookup "time_val"
      = Option.none)
  ∧ ((paramsOf (Client.set_clip_follow_action_command (PyValue.int 0) (PyValue.int 0)
        (PyValue.str "next") PyValue.none (PyValue.int 1) (PyValue.int 1))).lookup "time"
      = some (PyValue.int 1))
  ∧ ((paramsOf (Client.add_clip_envelope_point_command (PyValue.int 0) (PyValue.int 0)
        (PyValue.int 0) (PyValue.int 0) (PyValue.int 2) (PyValue.int 1)
        (PyValue.int 0))).lookup "time_val"
      = Option.none) :=
  ⟨rfl, rfl, rfl⟩

/-- C2 (amended): for every client command method invoked on a present
TCP socket, the single JSON document written to the socket is
`type = <command name>` with `params` mapping each parameter name to the
argument passed, unchanged (list- and dictionary-valued arguments
included), except that `set_clip_follow_action` and
`add_clip_envelope_point` send their `time_val` argument under the key
`time`; the parameterless methods `get_session_info`, `start_playback`,
`stop_playback` and `get_scenes_info` send only the `type` key. -/
theorem C2_commands_sent (jl : String → Option PyValue) (conn : TcpConn) :
    ((Client.get_session_info jl (some conn)).2
        = [PyValue.dict [("type", PyValue.str "get_session_info")]])
  ∧ (∀ tempo, (Client.set_tempo jl (some conn) tempo).2
        = [PyValue.dict [("type", PyValue.str "set_tempo"),
            ("params", PyValue.dict [("tempo", tempo)])]])
  ∧ ((Client.start_playback jl (some conn)).2
        = [PyValue.dict [("type", PyValue.str "start_playback")]])
  ∧ ((Client.stop_playback jl (some conn)).2
        = [PyValue.dict [("type", PyValue.str "stop_playback")]])
  ∧ (∀ ti, (Client.get_track_info jl (some conn) ti).2
        = [PyValue.dict [("type", PyValue.str "get_track_info"),
            ("params", PyValue.dict [("track_index", ti)])]])
  ∧ (∀ i, (Client.create_midi_track jl (some conn) i).2
        = [PyValue.dict [("type", PyValue.str "create_midi_track"),
            ("params", PyValue.dict [("index", i)])]])
  ∧ (∀ i, (Client.create_audio_track jl (some conn) i).2
        = [PyValue.dict [("type", PyValue.str "create_audio_track"),
            ("params", PyValue.dict [("index", i)])]])
  ∧ (∀ ti name, (Client.set_track_name jl (some conn) ti name).2
        = [PyValue.dict [("type", PyValue.str "set_track_name"),
            ("params", PyValue.dict [("track_index", ti), ("name", name)])]])
  ∧ (∀ ti level, (Client.set_track_level jl (some conn) ti level).2
        = [PyValue.dict [("type", PyValue.str "set_track_level"),
            ("params", PyValue.dict [("track_index", ti), ("level", level)])]])
  ∧ (∀ ti pan, (Client.set_track_pan jl (some conn) ti pan).2
        = [PyValue.dict [("type", PyValue.str "set_track_pan"),
            ("params", PyValue.dict [("track_index", ti), ("pan", pan)])]])
  ∧ (∀ ti ci len, (Client.create_clip jl (some conn) ti ci len).2
        = [PyValue.dict [("type", PyValue.str "create_clip"),
            ("params", PyValue.dict [("track_index", ti), ("clip_index", ci),
              ("length", len)])]])
  ∧ (∀ ti ci name, (Client.set_clip_name jl (some conn) ti ci name).2
        = [PyValue.dict [("type", PyValue.str "set_clip_name"),
            ("params", PyValue.dict [("track_index", ti), ("clip_index", ci),
              ("name", name)])]])
  ∧ (∀ ti ci, (Client.fire_clip jl (some conn) ti ci).2
        = [PyValue.dict [("type", PyValue.str "fire_clip"),
            ("params", PyValue.dict [("track_index", ti), ("clip_index", ci)])]])
  ∧ (∀ ti ci, (Client.stop_clip jl (some conn) ti ci).2
        = [PyValue.dict [("type", PyValue.str "stop_clip"),
            ("params", PyValue.dict [("track_index", ti), ("clip_index", ci)])]])
  ∧ (∀ ti ci ls le en, (Client.set_clip_loop_parameters jl (some conn) ti ci ls le en).2
        = [PyValue.dict [("type", PyValue.str "set_clip_loop_parameters"),
            ("params", PyValue.dict [("track_index", ti), ("clip_index", ci),
              ("loop_start", ls), ("loop_end", le), ("loop_enabled", en)])]])
  ∧ (∀ ti ci ac tc ch tv, (Client.set_clip_follow_action jl (some conn) ti ci ac tc ch tv).2
        = [PyValue.dict [("type", PyValue.str "set_clip_follow_action"),
            ("params", PyValue.dict [("track_index", ti), ("clip_index", ci),
              ("action", ac), ("target_clip", tc), ("chance", ch), ("time", tv)])]])
  ∧ (∀ ti ci notes, (Client.add_notes_to_clip jl (some conn) ti ci notes).2
        = [PyValue.dict [("type", PyValue.str "add_notes_to_clip"),
            ("params", PyValue.dict [("track_index", ti), ("clip_index", ci),
              ("notes", notes)])]])
  ∧ (∀ ti ci, (Client.get_notes_from_clip jl (some conn) ti ci).2
        = [PyValue.dict [("type", PyValue.str "get_notes_from_clip"),
            ("params", PyValue.dict [("track_index", ti), ("clip_index", ci)])]])
  ∧ (∀ ti ci ids arr, (Client.batch_edit_notes_in_clip jl (some conn) ti ci ids arr).2
        = [PyValue.dict [("type", PyValue.str "batch_edit_notes_in_clip"),
            ("params", PyValue.dict [("track_index", ti), ("clip_index", ci),
              ("note_ids", ids), ("note_data_array", arr)])]])
  ∧ (∀ ti ci ft tt fp tp, (Client.delete_notes_from_clip jl (some conn) ti ci ft tt fp tp).2
        = [PyValue.dict [("type", PyValue.str "delete_notes_from_clip"),
            ("params", PyValue.dict [("track_index", ti), ("clip_index", ci),
              ("from_time", ft), ("to_time", tt), ("from_pitch", fp), ("to_pitch", tp)])]])
  ∧ (∀ ti ci sm ft tt fp tp, (Client.transpose_notes_in_clip jl (some conn) ti ci sm ft tt fp tp).2
        = [PyValue.dict [("type", PyValue.str "transpose_notes_in_clip"),
            ("params", PyValue.dict [("track_index", ti), ("clip_index", ci),
              ("semitones", sm), ("from_time", ft), ("to_time", tt),
              ("from_pitch", fp), ("to_pitch", tp)])]])
  ∧ (∀ ti ci gs st ft tt fp tp, (Client.quantize_notes_in_clip jl (some conn) ti ci gs st ft tt fp tp).2
        = [PyValue.dict [("type", PyValue.str "quantize_notes_in_clip"),
            ("params", PyValue.dict [("track_index", ti), ("clip_index", ci),
              ("grid_size", gs), ("strength", st), ("from_time", ft), ("to_time", tt),
              ("from_pitch", fp), ("to_pitch", tp)])]])
  ∧ (∀ ti ci am ft tt fp tp, (Client.randomize_note_timing jl (some conn) ti ci am ft tt fp tp).2
        = [PyValue.dict [("type", PyValue.str "randomize_note_timing"),
            ("params", PyValue.dict [("track_index", ti), ("clip_index", ci),
              ("amount", am), ("from_time", ft), ("to_time", tt),
              ("from_pitch", fp), ("to_pitch", tp)])]])
  ∧ (∀ ti ci pr ft tt fp tp, (Client.set_note_probability jl (some conn) ti ci pr ft tt fp tp).2
        = [PyValue.dict [("type", PyValue.str "set_note_probability"),
            ("params", PyValue.dict [("track_index", ti), ("clip_index", ci),
              ("probability", pr), ("from_time", ft), ("to_time", tt),
              ("from_pitch", fp), ("to_pitch", tp)])]])
  ∧ (∀ ti di, (Client.get_device_parameters jl (some conn) ti di).2
        = [PyValue.dict [("type", PyValue.str "get_device_parameters"),
            ("params", PyValue.dict [("track_index", ti), ("device_index", di)])]])
  ∧ (∀ ti di pi v, (Client.set_device_parameter jl (some conn) ti di pi v).2
        = [PyValue.dict [("type", PyValue.str "set_device_parameter"),
            ("params", PyValue.dict [("track_index", ti), ("device_index", di),
              ("parameter_index", pi), ("value", v)])]])
  ∧ (∀ ti di idx vs, (Client.batch_set_device_parameters jl (some conn) ti di idx vs).2
        = [PyValue.dict [("type", PyValue.str "batch_set_device_parameters"),
            ("params", PyValue.dict [("track_index", ti), ("device_index", di),
              ("parameter_indices", idx), ("values", vs)])]])
  ∧ (∀ ti uri, (Client.load_instrument_or_effect jl (some conn) ti uri).2
        = [PyValue.dict [("type", PyValue.str "load_instrument_or_effect"),
            ("params", PyValue.dict [("track_index", ti), ("uri", uri)])]])
  ∧ (∀ ct, (Client.get_browser_tree jl (some conn) ct).2
        = [PyValue.dict [("type", PyValue.str "get_browser_tree"),
            ("params", PyValue.dict [("category_type", ct)])]])
  ∧ (∀ p, (Client.get_browser_items_at_path jl (some conn) p).2
        = [PyValue.dict [("type", PyValue.str "get_browser_items_at_path"),
            ("params", PyValue.dict [("path", p)])]])
  ∧ (∀ ti ru kp, (Client.load_drum_kit jl (some conn) ti ru kp).2
        = [PyValue.dict [("type", PyValue.str "load_drum_kit"),
            ("params", PyValue.dict [("track_index", ti), ("rack_uri", ru),
              ("kit_path", kp)])]])
  ∧ (∀ ti ci di pi, (Client.get_clip_envelope jl (some conn) ti ci di pi).2
        = [PyValue.dict [("type", PyValue.str "get_clip_envelope"),
            ("params", PyValue.dict [("track_index", ti), ("clip_index", ci),
              ("device_index", di), ("parameter_index", pi)])]])
  ∧ (∀ ti ci di pi tv v ct, (Client.add_clip_envelope_point jl (some conn) ti ci di pi tv v ct).2
        = [PyValue.dict [("type", PyValue.str "add_clip_envelope_point"),
            ("params", PyValue.dict [("track_index", ti), ("clip_index", ci),
              ("device_index", di), ("parameter_index", pi), ("time", tv),
              ("value", v), ("curve_type", ct)])]])
  ∧ (∀ ti ci di pi, (Client.clear_clip_envelope jl (some conn) ti ci di pi).2
        = [PyValue.dict [("type", PyValue.str "clear_clip_envelope"),
            ("params", PyValue.dict [("track_index", ti), ("clip_index", ci),
              ("device_index", di), ("parameter_index", pi)])]])
  ∧ ((Client.get_scenes_info jl (some conn)).2
        = [PyValue.dict [("type", PyValue.str "get_scenes_info")]])
  ∧ (∀ i, (Client.create_scene jl (some conn) i).2
        = [PyValue.dict [("type", PyValue.str "create_scene"),
            ("params", PyValue.dict [("index", i)])]])
  ∧ (∀ i name, (Client.set_scene_name jl (some conn) i name).2
        = [PyValue.dict [("type", PyValue.str "set_scene_name"),
            ("params", PyValue.dict [("index", i), ("name", name)])]])
  ∧ (∀ i, (Client.delete_scene jl (some conn) i).2
        = [PyValue.dict [("type", PyValue.str "delete_scene"),
            ("params", PyValue.dict [("index", i)])]])
  ∧ (∀ i, (Client.fire_scene jl (some conn) i).2
        = [PyValue.dict [("type", PyValue.str "fire_scene"),
            ("params", PyValue.dict [("index", i)])]])
  ∧ (∀ uri ti ci cr, (Client.import_audio_file jl (some conn) uri ti ci cr).2
        = [PyValue.dict [("type", PyValue.str "import_audio_file"),
            ("params", PyValue.dict [("uri", uri), ("track_index", ti),
              ("clip_index", ci), ("create_track_if_needed", cr)])]]) := by
  repeat' apply And.intro
  all_goals (intros; exact sendTcp_sent jl conn _)

/-- C3: for every tool adapter `_run` invocation (any command document,
any `json.loads` and `json.dumps` behaviour) on which the TCP connection
is successfully opened, the connection is used for exactly one command
and `disconnect` is called before `_run` returns, on every execution
path — including the path where `json.dumps` raises after the command,
since the source calls `disconnect` before serializing the result — and
the client never connects more than once within the invocation.  When
the connection fails, no events occur at all. -/
theorem C3_connection_used_once_then_closed (jl : String → Option PyValue)
    (jd : PyValue → PyResult String) (att : TcpConnectAttempt) (cmd : PyValue) :
    (toolRunBody jl jd att cmd).2
      = if att.createOk && att.connectOk then
          [RunEvent.connected, RunEvent.sentCmd cmd, RunEvent.disconnected]
        else [] :=
  toolRunBody_events jl jd att cmd

/-- C4 counterexample: the claim states a simple_tools helper sends at
most one command per request, but `create_track` with a name, on a
success reply, sends two: `create_midi_track` followed by
`set_track_name` for the returned index. -/
theorem C4_counterexample :
    (SimpleTools.create_track jlDemo (some stDemo) (some "Drums")).2
      = [Client.create_midi_track_command (PyValue.int (-1)),
         Client.set_track_name_command (PyValue.int 3) (PyValue.str "Drums")] :=
  rfl

/-- C4 (amended): every client command method, every tool adapter `_run`
and every single-command simple_tools helper transmits at most one JSON
command document per invocation; the simple_tools helpers `create_track`
and `create_clip` transmit at most two (the creation command, plus a
rename command when the creation reply reports success and a truthy name
was supplied). -/
theorem C4_command_count_bounds :
    (∀ jl sock cmd, (sendTcpCommand jl sock cmd).2.length ≤ 1)
  ∧ (∀ jl jd att cmd, sentCount (toolRunBody jl jd att cmd).2 ≤ 1)
  ∧ (∀ host p sock cmd, (sendUdpCommand host p sock cmd).2.length ≤ 1)
  ∧ (∀ jl client cmd, (SimpleTools.passthrough jl client cmd).2.length ≤ 1)
  ∧ (∀ host p client ti di pidx v,
      (SimpleTools.set_param_fast host p client ti di pidx v).2.length ≤ 1)
  ∧ (∀ jl client name, (SimpleTools.create_track jl client name).2.length ≤ 2)
  ∧ (∀ jl client ti ci len name,
      (SimpleTools.create_clip jl client ti ci len name).2.length ≤ 2) := by
  refine ⟨sendTcp_len, ?_, ?_, ?_, ?_, ?_, ?_⟩
  · intro jl jd att cmd
    rw [toolRunBody_events]
    split <;> simp [sentCount]
  · intro host p sock cmd
    cases sock with
    | none => simp [sendUdpCommand]
    | some conn => cases h : conn.sendErr <;> simp [sendUdpCommand, h]
  · intro jl client cmd
    cases client with
    | none => simp [SimpleTools.passthrough]
    | some st => exact sendTcp_len jl st.tcp cmd
  · intro host p client ti di pidx v
    cases client with
    | none => simp [SimpleTools.set_param_fast]
    | some st =>
      simp only [SimpleTools.set_param_fast, Client.set_device_parameter_udp]
      cases hu : st.udp with
      | none => simp [sendUdpCommand, hu]
      | some conn => cases h : conn.sendErr <;> simp [sendUdpCommand, hu, h]
  · intro jl client name
    cases client with
    | none => simp [SimpleTools.create_track]
    | some st =>
      rcases h1 : sendTcpCommand jl st.tcp
          (Client.create_midi_track_command (PyValue.int (-1))) with ⟨r1, sent1⟩
      have hl1 : sent1.length ≤ 1 := by
        simpa [h1] using sendTcp_len jl st.tcp (Client.create_midi_track_command (PyValue.int (-1)))
      cases r1 with
      | exn e => simp only [SimpleTools.create_track, h1]; omega
      | ok result =>
        cases h2 : pyGet result "status" with
        | exn e => simp only [SimpleTools.create_track, h1, h2]; omega
        | ok status =>
          cases hb : pyEqStr status "success" && nameTruthy name with
          | false => simp [SimpleTools.create_track, h1, h2, hb]; omega
          | true =>
            cases h3 : pySubscript result "result" with
            | exn e => simp [SimpleTools.create_track, h1, h2, hb, h3]; omega
            | ok res1 =>
              cases h4 : pySubscript res1 "index" with
              | exn e => simp [SimpleTools.create_track, h1, h2, hb, h3, h4]; omega
              | ok tidx =>
                rcases h5 : sendTcpCommand jl st.tcp
                    (Client.set_track_name_command tidx (PyValue.str (name.getD ""))) with ⟨r2, sent2⟩
                have hl2 : sent2.length ≤ 1 := by
                  simpa [h5] using sendTcp_len jl st.tcp
                    (Client.set_track_name_command tidx (PyValue.str (name.getD "")))
                cases r2 <;>
                  simp [SimpleTools.create_track, h1, h2, hb, h3, h4, h5] <;> omega
  · intro jl client ti ci len name
    cases client with
    | none => simp [SimpleTools.create_clip]
    | some st =>
      rcases h1 : sendTcpCommand jl st.tcp
          (Client.create_clip_command ti ci len) with ⟨r1, sent1⟩
      have hl1 : sent1.length ≤ 1 := by
        simpa [h1] using sendTcp_len jl st.tcp (Client.create_clip_command ti ci len)
      cases r1 with
      | exn e => simp only [SimpleTools.create_clip, h1]; omega
      | ok result =>
        cases h2 : pyGet result "status" with
        | exn e => simp only [SimpleTools.create_clip, h1, h2]; omega
        | ok status =>
          cases hb : pyEqStr status "success" && nameTruthy name with
          | false => simp [SimpleTools.create_clip, h1, h2, hb]; omega
          | true =>
            rcases h5 : sendTcpCommand jl st.tcp
                (Client.set_clip_name_command ti ci (PyValue.str (name.getD ""))) with ⟨r2, sent2⟩
            have hl2 : sent2.length ≤ 1 := by
              simpa [h5] using sendTcp_len jl st.tcp
                (Client.set_clip_name_command ti ci (PyValue.str (name.getD "")))
            cases r2 <;>
              simp [SimpleTools.create_clip, h1, h2, hb, h5] <;> omega

/-- C5: for every tool adapter `_run` invocation (any command, any
`json.loads` and `json.dumps` behaviour), the result is an `ok` string —
never a raised exception, never a non-string: the `json.dumps(·, indent=2)`
serialization of the client's response on the success path, the fixed
connection-failure message when `connect_tcp` reports `False`, and
`"Error: "` followed by the exception's message when the serialization
raises. -/
theorem C5_run_always_returns_string (jl : String → Option PyValue)
    (jd : PyValue → PyResult String) (att : TcpConnectAttempt) (cmd : PyValue) :
    (toolRunBody jl jd att cmd).1
      = PyResult.ok
          (if att.createOk && att.connectOk then
            match jd (okValue (sendTcpCommand jl (some att.conn) cmd).1) with
            | PyResult.ok s => s
            | PyResult.exn e => "Error: " ++ e.msg
          else connectFailMsg) :=
  toolRunBody_result jl jd att cmd

/-- C6: for every tool adapter `_run` invocation on which `connect_tcp`
returns `False` (socket creation or connect raised), `_run` returns the
fixed connection-failure string and the event trace is empty: no command
document is written to any socket, so no state-changing request reaches
the remote endpoint. -/
theorem C6_no_command_on_connect_failure (jl : String → Option PyValue)
    (jd : PyValue → PyResult String) (att : TcpConnectAttempt) (cmd : PyValue)
    (h : (connect_tcp att newClient).1 = false) :
    toolRunBody jl jd att cmd = (PyResult.ok connectFailMsg, []) := by
  rcases hc : connect_tcp att newClient with ⟨b, st1⟩
  have hb : b = false := by rw [hc] at h; exact h
  subst hb
  simp [toolRunBody, hc]

/-- C6 witness: a concrete run in which socket creation fails. -/
theorem C6_no_command_on_connect_failure_witness :
    toolRunBody jlNone jdOk attNoCreate Client.get_session_info_command
      = (PyResult.ok connectFailMsg, []) :=
  C6_no_command_on_connect_failure jlNone jdOk attNoCreate
    Client.get_session_info_command rfl

/-- C7: on a present UDP socket, `_send_udp_command` (and hence
`set_device_parameter_udp` and `batch_set_device_parameters_udp`, which
build the same command documents as their TCP counterparts) sends the
command as exactly one datagram to `(host, udp_port)` and returns `ok
True`, or — when `sendto` raises — sends nothing, swallows the
exception, and returns `ok False`; it never raises and never reads a
reply (the UDP model has no receive component at all, so the result is
independent of anything a server might send). -/
theorem C7_udp_fire_and_forget (host : String) (p : Nat) (conn : UdpConn)
    (ti di pidx v pidxs vs : PyValue) :
    (Client.set_device_parameter_udp host p (some conn) ti di pidx v
      = if conn.sendErr.isSome then (PyResult.ok false, [])
        else (PyResult.ok true, [(Client.set_device_parameter_command ti di pidx v, host, p)]))
  ∧ (Client.batch_set_device_parameters_udp host p (some conn) ti di pidxs vs
      = if conn.sendErr.isSome then (PyResult.ok false, [])
        else (PyResult.ok true,
          [(Client.batch_set_device_parameters_command ti di pidxs vs, host, p)]))
  ∧ (∀ cmd, sendUdpCommand host p (some conn) cmd
      = if conn.sendErr.isSome then (PyResult.ok false, [])
        else (PyResult.ok true, [(cmd, host, p)])) := by
  cases h : conn.sendErr <;>
    simp [Client.set_device_parameter_udp, Client.batch_set_device_parameters_udp,
      sendUdpCommand, h]

/-- C8 counterexample: the claim's consequence fails.  After a
`connect_tcp` attempt in which the socket object was created but the
connect itself raised, `self.tcp_socket` is not `None`; a client command
method invoked in that state (before any successful `connect_tcp`)
returns the error dictionary built from the `sendall` failure instead of
raising `ConnectionError`. -/
theorem C8_counterexample :
    ((connect_tcp attNoConnect newClient).1 = false)
  ∧ ((connect_tcp attNoConnect newClient).2.tcp ≠ Option.none)
  ∧ (Client.get_session_info jlNone (connect_tcp attNoConnect newClient).2.tcp
      = (PyResult.ok (errorDict "not connected"), [Client.get_session_info_command])) :=
  ⟨rfl, fun h => Option.noConfusion h, rfl⟩

/-- C8 (amended): `_send_tcp_command` with `tcp_socket = None` and
`_send_udp_command` with `udp_socket = None` raise `ConnectionError` and
transmit nothing, so every client command method invoked on a fresh
client (no connect attempt yet) raises `ConnectionError`; but after a
failed `connect_tcp` in which the socket object was created, the socket
field is non-`None` and a command method instead returns the error
dictionary produced by the failing `sendall`. -/
theorem C8_not_connected_behaviour :
    (∀ jl cmd, sendTcpCommand jl Option.none cmd
        = (PyResult.exn ⟨"ConnectionError", "Not connected to TCP server"⟩, []))
  ∧ (∀ host p cmd, sendUdpCommand host p Option.none cmd
        = (PyResult.exn ⟨"ConnectionError", "Not connected to UDP server"⟩, []))
  ∧ (∀ jl, Client.get_session_info jl newClient.tcp
        = (PyResult.exn ⟨"ConnectionError", "Not connected to TCP server"⟩, []))
  ∧ (∀ jl tempo, Client.set_tempo jl newClient.tcp tempo
        = (PyResult.exn ⟨"ConnectionError", "Not connected to TCP server"⟩, []))
  ∧ (∀ host p ti di pidx v,
      Client.set_device_parameter_udp host p newClient.udp ti di pidx v
        = (PyResult.exn ⟨"ConnectionError", "Not connected to UDP server"⟩, []))
  ∧ (∀ jl m cmd,
      sendTcpCommand jl (some { sendErr := some m, chunks := [], recvErr := Option.none }) cmd
        = (PyResult.ok (errorDict m), [cmd])) := by
  refine ⟨fun jl cmd => rfl, fun host p cmd => rfl, fun jl => rfl,
    fun jl tempo => rfl, fun host p ti di pidx v => rfl, fun jl m cmd => rfl⟩

/-- C9: `connect_udp` performs no network communication: it returns
`True` and assigns the created datagram socket to `udp_socket` exactly
when socket creation succeeds (independently of any server listening at
the destination, which the environment record does not even mention),
and returns `False` with the state unchanged only when `socket.socket`
itself raises. -/
theorem C9_connect_udp_local_only (att : UdpConnectAttempt) (st : ClientState) :
    connect_udp att st
      = (att.createOk,
         if att.createOk then { st with udp := some att.conn } else st) := by
  cases h : att.createOk <;> simp [connect_udp, h]

/-- C10: `disconnect` never raises and is idempotent: after any call
both socket fields are `None` whatever their prior state, exceptions
raised while closing a socket do not affect the outcome (the result is
independent of the close-failure flags), and a second call closes
nothing and is a no-op. -/
theorem C10_disconnect_idempotent (a b a2 b2 : Bool) (st : ClientState) :
    ((disconnect a b st).1 = { tcp := Option.none, udp := Option.none })
  ∧ (disconnect a2 b2 (disconnect a b st).1
      = ({ tcp := Option.none, udp := Option.none }, []))
  ∧ (disconnect a b st = disconnect a2 b2 st) := by
  obtain ⟨t, u⟩ := st
  cases t <;> cases u <;> cases a <;> cases b <;> cases a2 <;> cases b2 <;>
    simp [disconnect, closeResult]
